import Mathlib

/-!
Verification of the affine-matrix / transform-parser core (Matrix.cpp of dvisvgm).

The C++ double type is modelled by the rationals: all matrix algebra in the
source is field arithmetic, and the trigonometric functions used by the
rotation and skew operations are kept abstract (a `Trig` record of parameters),
since the claims under consideration do not depend on their analytic values.

The external expression evaluator (class Calculator, outside the analysed
source file) is kept abstract as a `Calc` record; a concrete instance modelled
from the spec is provided for theorems that need one.
-/

namespace Dvi

/-- The 3x3 array of doubles backing the Matrix class (`double values[3][3]`),
modelled as a total function on naturals; indices outside 0..2 are never read
by any of the modelled operations. -/
structure Matrix where
  values : ℕ → ℕ → ℚ

/-- Matrix::Matrix(double d): the diagonal matrix ((d,0,0),(0,d,0),(0,0,d)),
built by the loop values[i][j] = (i==j ? d : 0). -/
def Matrix.diag (d : ℚ) : Matrix :=
  ⟨fun i j => if i = j then d else 0⟩

/-- Matrix::set(double v[], unsigned size) and Matrix::set(const vector<double>&):
size = min(size, 9); for i < size: values[i/3][i%3] = v[i];
for size <= i < 9: values[i/3][i%3] = (i%4 ? 0 : 1).
Cell (i,j) corresponds to flattened index 3*i+j. -/
def Matrix.set (v : List ℚ) (size : ℕ) : Matrix :=
  ⟨fun i j =>
    if i < 3 ∧ j < 3 then
      if 3 * i + j < min size 9 then v.getD (3 * i + j) 0
      else if (3 * i + j) % 4 = 0 then 1 else 0
    else 0⟩

/-- Matrix::set(const vector<double> &v): size is taken from the vector itself. -/
def Matrix.setVec (v : List ℚ) : Matrix :=
  Matrix.set v v.length

/-- TranslationMatrix::TranslationMatrix(tx,ty): set({1,0,tx,0,1,ty}, 6). -/
def TranslationMatrix (tx ty : ℚ) : Matrix :=
  Matrix.set [1, 0, tx, 0, 1, ty] 6

/-- ScalingMatrix::ScalingMatrix(sx,sy): set({sx,0,0,0,sy}, 5). -/
def ScalingMatrix (sx sy : ℚ) : Matrix :=
  Matrix.set [sx, 0, 0, 0, sy] 5

/-- Abstract stand-ins for the floating-point library functions the source
applies to angles given in degrees: cosd/sind/tand model cos(deg2rad x),
sin(deg2rad x), tan(deg2rad x), and eps models numeric_limits<double>::epsilon(). -/
structure Trig where
  cosd : ℚ → ℚ
  sind : ℚ → ℚ
  tand : ℚ → ℚ
  eps : ℚ

/-- RotationMatrix::RotationMatrix(deg): set({c,-s,0,s,c}, 5) with
c = cos(deg2rad deg), s = sin(deg2rad deg). -/
def RotationMatrix (trig : Trig) (deg : ℚ) : Matrix :=
  Matrix.set [trig.cosd deg, -(trig.sind deg), 0, trig.sind deg, trig.cosd deg] 5

/-- Matrix::rmultiply(tm): the loop computes ret[i][j] += tm[i][k] * this[k][j],
i.e. the new value of this is the product tm * this (tm composed on the left in
the column-vector convention), and assigns it to this. -/
def Matrix.rmultiply (m tm : Matrix) : Matrix :=
  ⟨fun i j =>
    tm.values i 0 * m.values 0 j + tm.values i 1 * m.values 1 j +
      tm.values i 2 * m.values 2 j⟩

/-- Matrix::lmultiply(tm): the loop computes ret[i][j] += this[i][k] * tm[k][j],
i.e. the new value of this is the product this * tm. -/
def Matrix.lmultiply (m tm : Matrix) : Matrix :=
  ⟨fun i j =>
    m.values i 0 * tm.values 0 j + m.values i 1 * tm.values 1 j +
      m.values i 2 * tm.values 2 j⟩

/-- Matrix::operator*(const DPair &p): multiplies the matrix with the
homogeneous point (x, y, 1) and returns the first two components. -/
def Matrix.apply (m : Matrix) (p : ℚ × ℚ) : ℚ × ℚ :=
  (m.values 0 0 * p.1 + m.values 0 1 * p.2 + m.values 0 2 * 1,
   m.values 1 0 * p.1 + m.values 1 1 * p.2 + m.values 1 2 * 1)

/-- Matrix::operator==: compares only rows 0 and 1 (all three columns). -/
def Matrix.eqb (m1 m2 : Matrix) : Bool :=
  decide (m1.values 0 0 = m2.values 0 0) && decide (m1.values 0 1 = m2.values 0 1) &&
  decide (m1.values 0 2 = m2.values 0 2) && decide (m1.values 1 0 = m2.values 1 0) &&
  decide (m1.values 1 1 = m2.values 1 1) && decide (m1.values 1 2 = m2.values 1 2)

/-- Matrix::isTranslation(double &tx, double &ty): first writes
tx = values[0][2] and ty = values[1][2]; then the loop over i in 0..2, j in 0..1
requires diagonal cells to be 1 and off-diagonal cells to be 0 (in the order
(0,0),(0,1),(1,0),(1,1),(2,0),(2,1)), and finally requires values[2][2] == 1.
Modelled as returning (check result, tx, ty): the offsets are produced
unconditionally, also when the check fails. -/
def Matrix.isTranslation (m : Matrix) : Bool × ℚ × ℚ :=
  let tx := m.values 0 2
  let ty := m.values 1 2
  let ok :=
    decide (m.values 0 0 = 1) && decide (m.values 0 1 = 0) &&
    decide (m.values 1 0 = 0) && decide (m.values 1 1 = 1) &&
    decide (m.values 2 0 = 0) && decide (m.values 2 1 = 0) &&
    decide (m.values 2 2 = 1)
  (ok, tx, ty)

/-- Matrix::translate(tx,ty): if (tx != 0 || ty != 0) rmultiply(TranslationMatrix(tx,ty)). -/
def Matrix.translate (m : Matrix) (tx ty : ℚ) : Matrix :=
  if tx ≠ 0 ∨ ty ≠ 0 then m.rmultiply (TranslationMatrix tx ty) else m

/-- Matrix::scale(sx,sy): if (sx != 1 || sy != 1) rmultiply(ScalingMatrix(sx,sy)). -/
def Matrix.scale (m : Matrix) (sx sy : ℚ) : Matrix :=
  if sx ≠ 1 ∨ sy ≠ 1 then m.rmultiply (ScalingMatrix sx sy) else m

/-- Matrix::rotate(deg): rmultiply(RotationMatrix(deg)); no identity fast path. -/
def Matrix.rotate (m : Matrix) (trig : Trig) (deg : ℚ) : Matrix :=
  m.rmultiply (RotationMatrix trig deg)

/-- Matrix::xskew(deg): t = tan(deg2rad deg); if (t != 0) rmultiply(Matrix({1,t}, 2)). -/
def Matrix.xskew (m : Matrix) (trig : Trig) (deg : ℚ) : Matrix :=
  let t := trig.tand deg
  if t ≠ 0 then m.rmultiply (Matrix.set [1, t] 2) else m

/-- Matrix::yskew(deg): t = tan(deg2rad deg); if (t != 0) rmultiply(Matrix({1,0,0,t}, 4)). -/
def Matrix.yskew (m : Matrix) (trig : Trig) (deg : ℚ) : Matrix :=
  let t := trig.tand deg
  if t ≠ 0 then m.rmultiply (Matrix.set [1, 0, 0, t] 4) else m

/-- Matrix::flip(haxis, a): s = haxis ? -1 : 1;
rmultiply(Matrix({-s, 0, haxis?0:2a, 0, s, haxis?2a:0, 0, 0, 1})). -/
def Matrix.flip (m : Matrix) (haxis : Bool) (a : ℚ) : Matrix :=
  let s : ℚ := if haxis then -1 else 1
  m.rmultiply (Matrix.set
    [-s, 0, if haxis then 0 else 2 * a, 0, s, if haxis then 2 * a else 0, 0, 0, 1] 9)

/-- The file-static helper round(x, n) = floor(x * 10^n + 0.5) / 10^n. -/
def round (x : ℚ) (n : ℕ) : ℚ :=
  (⌊x * 10 ^ n + 1 / 2⌋ : ℚ) / 10 ^ n

/-- Strips trailing zero digits, as the default ostream formatting of a double
does for the fractional part. -/
def stripZeros (ds : List Char) : List Char :=
  (ds.reverse.dropWhile (fun c => c = '0')).reverse

/-- Models the default C++ ostream formatting (operator<< on double) for the
values getSVG produces: exact for integers and, for non-integers, renders the
integer part followed by the fractional digits with trailing zeros removed
(faithful for magnitudes below 10^6 with at most three decimal digits, which
is the range of round(x,3) outputs the claims exercise). -/
def fmtQ (x : ℚ) : String :=
  if x.den = 1 then toString x.num
  else
    let sgn := if x < 0 then "-" else ""
    let a : ℚ := |x|
    let ip : ℤ := ⌊a⌋
    let th : ℕ := (⌊(a - (ip : ℚ)) * 1000⌋).toNat
    let ds := Nat.toDigits 10 th
    let padded := List.replicate (3 - ds.length) '0' ++ ds
    sgn ++ toString ip ++ "." ++ String.mk (stripZeros padded)

/-- Matrix::getSVG(): "matrix(" then, for i in 0..2 and j in 0..1, a space
separator (except before the very first number) followed by
round(values[j][i], 3), then ")". The number formatter is a parameter
modelling ostream operator<<. -/
def Matrix.getSVG (fmt : ℚ → String) (m : Matrix) : String :=
  let body := (List.range 3).foldl (fun acc i =>
    (List.range 2).foldl (fun acc2 j =>
      (if 0 < i ∨ 0 < j then acc2 ++ " " else acc2) ++ fmt (round (m.values j i) 3)) acc) ""
  "matrix(" ++ body ++ ")"

/-!  The transform parser. -/

/-- The structured counterparts of the ParserException messages thrown in
Matrix.cpp:
  commaExpected    = "',' expected" (getArgument)
  parameterExpected= "parameter expected" (getArgument)
  expectedHV       = "'H' or 'V' expected" (case 'F')
  expectedXY       = "transformation command 'K' must be followed by 'X' or 'Y'" (case 'K')
  illegalSkew a    = "illegal skewing angle: a degrees" (case 'K')
  commandExpected c= "transformation command expected (found c instead)" (default case);
                     c = none models the char obtained from get() at end of input.
fuelOut is an artifact of the fuel-based encoding of the while loop; it is
never produced when the fuel exceeds the input length. -/
inductive ParserErr where
  | commaExpected
  | parameterExpected
  | expectedHV
  | expectedXY
  | illegalSkew (a : ℚ)
  | commandExpected (c : Option Char)
  | fuelOut
deriving DecidableEq

/-- Errors escaping Matrix::parse: its own ParserException, or an exception of
the external Calculator propagating through unchanged (carried verbatim). -/
inductive PErr where
  | parser (e : ParserErr)
  | calc (msg : String)
deriving DecidableEq

/-- The external expression evaluator (class Calculator): evaluate an
expression string to a number, or look up a named variable; both may fail. -/
structure Calc where
  eval : String → Except String ℚ
  getVariable : String → Except String ℚ

/-- The state of the istream the parser reads from: the remaining characters
plus the eofbit and failbit flags (badbit never arises for a string stream). -/
structure IStream where
  input : List Char
  eofbit : Bool
  failbit : Bool
deriving DecidableEq

/-- ios::good(): no error flag set. -/
def IStream.good (s : IStream) : Bool := !s.eofbit && !s.failbit

/-- istream::peek(): the sentry sets failbit if the stream is not good;
otherwise reading at end of input sets eofbit; a successful peek does not
extract the character. -/
def IStream.peek (s : IStream) : Option Char × IStream :=
  if s.good then
    match s.input with
    | [] => (none, { s with eofbit := true })
    | c :: _ => (some c, s)
  else (none, { s with failbit := true })

/-- istream::get(): the sentry sets failbit if the stream is not good;
otherwise extraction at end of input sets eofbit and failbit; a successful
get extracts and returns the character. -/
def IStream.get (s : IStream) : Option Char × IStream :=
  if s.good then
    match s.input with
    | [] => (none, { s with eofbit := true, failbit := true })
    | c :: rest => (some c, { s with input := rest })
  else (none, { s with failbit := true })

/-- The char the C++ code stores when it appends the int EOF (-1) returned by
get() to a std::string: (char)(-1), i.e. byte 0xFF. -/
def eofChar : Char := Char.ofNat 255

/-- isspace in the C locale. -/
def isspaceC (c : Char) : Bool :=
  c = ' ' || c = '\t' || c = '\n' || c = '\x0b' || c = '\x0c' || c = '\r'

/-- isupper in the C locale: 'A'..'Z'. isupper(EOF) is false. -/
def isupperC (c : Char) : Bool :=
  'A' ≤ c && c ≤ 'Z'

/-- The loop "while (isspace(is.peek())) is.get();" shared by parse and
getArgument: if the stream is not good the first peek's sentry sets failbit;
otherwise the longest initial run of spaces is extracted, and if that reaches
the end of the input the final peek sets eofbit. -/
def skipSpaces (s : IStream) : IStream :=
  if s.good then
    let rest := s.input.dropWhile isspaceC
    if rest.isEmpty then { s with input := [], eofbit := true }
    else { s with input := rest }
  else { s with failbit := true }

/-- The loop "while (is && !isupper(is.peek()) && is.peek() != ',')
expr += is.get();" running on a good stream: ordinary characters are
accumulated; an uppercase letter or comma stops the loop without extracting;
at end of input the first peek sets eofbit, the second peek's sentry sets
failbit, and is.get() then returns EOF whose (char) cast 0xFF is still
appended to the expression before the loop condition next fails. -/
def readExprGo : List Char → String × IStream
  | [] => (String.mk [eofChar], ⟨[], true, true⟩)
  | c :: rest =>
    if isupperC c = false ∧ c ≠ ',' then
      let r := readExprGo rest
      (String.mk [c] ++ r.1, r.2)
    else ("", ⟨c :: rest, false, false⟩)

/-- The expression-reading loop of getArgument, including its behaviour on a
stream that is already failed (loop body never runs) or already at eof (the
peek's sentry sets failbit, and the EOF byte is appended as above). -/
def readExpr (s : IStream) : String × IStream :=
  if s.failbit then ("", s)
  else if s.eofbit then (String.mk [eofChar], { s with failbit := true })
  else readExprGo s.input

/-- The part of getArgument following the leading-comma check: if a comma is
pending it is consumed and the argument becomes required; then the expression
text is read; an empty text yields the default for an optional argument and
"parameter expected" otherwise; a non-empty text is handed to the evaluator,
whose errors propagate unchanged. -/
def getArgumentRest (cal : Calc) (dflt : ℚ) (opt : Bool) (s2 : IStream) :
    Except PErr (ℚ × IStream) :=
  let pc := s2.peek
  let a : Bool × IStream := if pc.1 = some ',' then (false, (pc.2.get).2) else (opt, pc.2)
  let r := readExpr a.2
  if r.1.isEmpty then
    if a.1 then .ok (dflt, r.2) else .error (.parser .parameterExpected)
  else
    match cal.eval r.1 with
    | .error msg => .error (.calc msg)
    | .ok v => .ok (v, r.2)

/-- getArgument(is, calc, def, optional, leadingComma): skip spaces; when the
argument is required and a leading comma is demanded, peek must yield a comma
or "',' expected" is thrown; the rest of the body is getArgumentRest. -/
def getArgument (cal : Calc) (dflt : ℚ) (opt leadingComma : Bool) (s : IStream) :
    Except PErr (ℚ × IStream) :=
  let s1 := skipSpaces s
  if !opt && leadingComma then
    let pc0 := s1.peek
    if pc0.1 = some ',' then getArgumentRest cal dflt opt pc0.2
    else .error (.parser .commaExpected)
  else getArgumentRest cal dflt opt s1

/-- The argument loop of the 'M' directive:
for i in 0..5: v[i] = getArgument(is, calc, i%4 ? 0 : 1, i != 0, i != 0). -/
def readArgs (cal : Calc) : ℕ → ℕ → IStream → Except PErr (List ℚ × IStream)
  | _, 0, s => .ok ([], s)
  | i, n + 1, s =>
    match getArgument cal (if i % 4 = 0 then 1 else 0) (decide (i ≠ 0)) (decide (i ≠ 0)) s with
    | .error e => .error e
    | .ok (v, s') =>
      match readArgs cal (i + 1) n s' with
      | .error e => .error e
      | .ok (vs, s'') => .ok (v :: vs, s'')

/-- The while(is) loop of Matrix::parse(istream&, Calculator&), one directive
per iteration. The fuel argument bounds the number of iterations; every
iteration that recurses has extracted at least the command character, so fuel
exceeding the input length is never exhausted. In the 'R' case the default
centre sub-expressions calc.getVariable("ux") + calc.getVariable("w")/2 and
calc.getVariable("uy") + calc.getVariable("h")/2 are function arguments in the
C++ code and are therefore evaluated before the respective getArgument call,
also when the optional argument is present (the C++ evaluation order inside
each pair is unspecified; a failure of either lookup aborts parsing either
way). -/
def parseLoop (cal : Calc) (trig : Trig) : ℕ → Matrix → IStream → Except PErr Matrix
  | 0, _, _ => .error (.parser .fuelOut)
  | fuel + 1, m, s =>
    if s.failbit then .ok m
    else
      let g := (skipSpaces s).get
      if g.1 = some 'T' then
        match getArgument cal 0 false false g.2 with
        | .error e => .error e
        | .ok (tx, s2) =>
          match getArgument cal 0 true true s2 with
          | .error e => .error e
          | .ok (ty, s3) => parseLoop cal trig fuel (m.translate tx ty) s3
      else if g.1 = some 'S' then
        match getArgument cal 1 false false g.2 with
        | .error e => .error e
        | .ok (sx, s2) =>
          match getArgument cal sx true true s2 with
          | .error e => .error e
          | .ok (sy, s3) => parseLoop cal trig fuel (m.scale sx sy) s3
      else if g.1 = some 'R' then
        match getArgument cal 0 false false g.2 with
        | .error e => .error e
        | .ok (a, s2) =>
          match cal.getVariable "ux" with
          | .error msg => .error (.calc msg)
          | .ok ux =>
            match cal.getVariable "w" with
            | .error msg => .error (.calc msg)
            | .ok w =>
              match getArgument cal (ux + w / 2) true true s2 with
              | .error e => .error e
              | .ok (x, s3) =>
                match cal.getVariable "uy" with
                | .error msg => .error (.calc msg)
                | .ok uy =>
                  match cal.getVariable "h" with
                  | .error msg => .error (.calc msg)
                  | .ok h =>
                    match getArgument cal (uy + h / 2) true true s3 with
                    | .error e => .error e
                    | .ok (y, s4) =>
                      parseLoop cal trig fuel
                        (((m.translate (-x) (-y)).rotate trig a).translate x y) s4
      else if g.1 = some 'F' then
        let gc := g.2.get
        if gc.1 ≠ some 'H' ∧ gc.1 ≠ some 'V' then .error (.parser .expectedHV)
        else
          match getArgument cal 0 false false gc.2 with
          | .error e => .error e
          | .ok (a, s2) => parseLoop cal trig fuel (m.flip (gc.1 == some 'H') a) s2
      else if g.1 = some 'K' then
        let gc := g.2.get
        if gc.1 ≠ some 'X' ∧ gc.1 ≠ some 'Y' then .error (.parser .expectedXY)
        else
          match getArgument cal 0 false false gc.2 with
          | .error e => .error e
          | .ok (a, s2) =>
            if |trig.cosd a| ≤ trig.eps then .error (.parser (.illegalSkew a))
            else
              parseLoop cal trig fuel
                (if gc.1 == some 'X' then m.xskew trig a else m.yskew trig a) s2
      else if g.1 = some 'M' then
        match readArgs cal 0 6 g.2 with
        | .error e => .error e
        | .ok (vs, s2) =>
          parseLoop cal trig fuel (m.rmultiply (Matrix.set (vs ++ [0, 0, 1]) 9)) s2
      else .error (.parser (.commandExpected g.1))

/-- The istringstream built by Matrix::parse(const string&, Calculator&). -/
def mkIStream (cmds : String) : IStream := ⟨cmds.data, false, false⟩

/-- Matrix::parse(const string &cmds, Calculator &calc) on the receiver value:
the body of the istream overload first executes *this = Matrix(1), so the
accumulator is reset to the identity and the receiver m0 is discarded. -/
def Matrix.parseFrom (_m0 : Matrix) (cal : Calc) (trig : Trig) (cmds : String) :
    Except PErr Matrix :=
  parseLoop cal trig (cmds.length + 1) (Matrix.diag 1) (mkIStream cmds)

/-- Matrix::parse seen as a function of the directive string and the
evaluator alone. -/
def Matrix.parseStr (cal : Calc) (trig : Trig) (cmds : String) : Except PErr Matrix :=
  parseLoop cal trig (cmds.length + 1) (Matrix.diag 1) (mkIStream cmds)

/-- Modelled from the spec: the external expression evaluator (class
Calculator, not part of the analysed source) applied to an argument string.
The spec describes it as parsing an arithmetic expression and failing with a
syntax error otherwise; the model covers the non-negative integer literals
appearing in the claims and rejects every other string, in particular any
string containing the 0xFF byte. -/
def evalNumeral (s : String) : Except String ℚ :=
  if s.length ≠ 0 ∧ s.data.all Char.isDigit then
    .ok ((s.data.foldl (fun acc c => 10 * acc + (c.toNat - 48)) 0 : ℕ) : ℚ)
  else .error "expression syntax error"

/-- Modelled from the spec: a Calculator whose expression evaluation is
evalNumeral and whose variable store is the given environment. -/
def specCalc (env : String → Except String ℚ) : Calc :=
  { eval := evalNumeral, getVariable := env }

/-- A variable environment in which every variable is defined (value 0). -/
def envAllZero : String → Except String ℚ := fun _ => .ok 0

/-- Modelled from the spec: a Calculator with all variables defined. -/
def calcStd : Calc := specCalc envAllZero

/-- An environment in which exactly the named variable is undefined; the
error message records the name. -/
def envMissingVar (bad : String) : String → Except String ℚ := fun n =>
  if n = bad then .error ("undefined variable " ++ bad) else .ok 0

/-- A Calculator both of whose operations fail with a fixed message; used to
show evaluator errors propagate unchanged. -/
def calcBoom : Calc :=
  { eval := fun _ => .error "boom", getVariable := fun _ => .error "boom" }

/-- An arbitrary instantiation of the trigonometric parameters, used by
theorems whose truth does not depend on the trigonometric values. -/
def trig0 : Trig :=
  { cosd := fun _ => 1, sind := fun _ => 0, tand := fun _ => 0,
    eps := ⟨1, 2 ^ 52, by norm_num, by norm_num⟩ }

/-- A trigonometric instantiation whose cosine vanishes, as cos does at 90
degrees; eps models DBL_EPSILON = 2^-52. -/
def trigCos0 : Trig :=
  { cosd := fun _ => 0, sind := fun _ => 1, tand := fun _ => 0,
    eps := ⟨1, 2 ^ 52, by norm_num, by norm_num⟩ }


/-- Whether a parse result is a success. -/
def isOkE (r : Except PErr Matrix) : Bool :=
  match r with
  | .ok _ => true
  | .error _ => false

/-- Whether a parse result is anything other than the "',' expected"
ParserException. -/
def noCommaErr (r : Except PErr Matrix) : Bool :=
  match r with
  | .error (.parser .commaExpected) => false
  | _ => true

/-! Helper lemmas: the "',' expected" branch of getArgument is dead code for
every call site occurring in parse, since a demanded leading comma always
accompanies an optional argument there. -/

theorem getArgumentRest_no_comma (cal : Calc) (dflt : ℚ) (opt : Bool) (s : IStream) :
    getArgumentRest cal dflt opt s = .error (.parser .commaExpected) → False := by
  unfold getArgumentRest
  dsimp only
  split_ifs <;> try simp
  all_goals split <;> simp

theorem getArgument_no_comma (cal : Calc) (dflt : ℚ) (opt lc : Bool) (s : IStream)
    (h : opt = true ∨ lc = false) :
    getArgument cal dflt opt lc s = .error (.parser .commaExpected) → False := by
  unfold getArgument
  have hb : (!opt && lc) = false := by rcases h with h | h <;> simp [h]
  simp only [hb, Bool.false_eq_true, if_false]
  exact getArgumentRest_no_comma cal dflt opt (skipSpaces s)

theorem readArgs_no_comma (cal : Calc) :
    ∀ (n i : ℕ) (s : IStream), readArgs cal i n s = .error (.parser .commaExpected) → False := by
  intro n
  induction n with
  | zero => intro i s; simp [readArgs]
  | succ n ih =>
    intro i s
    unfold readArgs
    split
    · rename_i e he
      intro hc
      injection hc with hc
      apply getArgument_no_comma cal _ _ _ s _ (by rw [hc] at he; exact he)
      by_cases hi : i = 0 <;> simp [hi]
    · split
      · rename_i e he
        intro hc
        injection hc with hc
        subst hc
        exact ih (i + 1) _ he
      · simp


set_option maxHeartbeats 8000000 in
theorem parseLoop_no_comma (cal : Calc) (trig : Trig) :
    ∀ (fuel : ℕ) (m : Matrix) (s : IStream),
      parseLoop cal trig fuel m s = .error (.parser .commaExpected) → False := by
  intro fuel
  induction fuel with
  | zero => intro m s; show Except.error (PErr.parser ParserErr.fuelOut) ≠ _; simp
  | succ fuel ih =>
    intro m s
    show (if s.failbit = true then Except.ok m else _) ≠ _
    split_ifs with hf
    · simp
    · dsimp only
      repeat' split
      all_goals
        solve
        | simp
        | exact ih _ _
        | (rename_i e he
           intro hc
           (try injection hc with hc)
           subst hc
           first
           | with_reducible exact getArgument_no_comma _ _ _ _ _ (Or.inl rfl) he
           | with_reducible exact getArgument_no_comma _ _ _ _ _ (Or.inr rfl) he
           | with_reducible exact readArgs_no_comma _ _ _ _ he)



/-! The claim theorems. -/

/-- C1 (counterexample): the claim that rightCompose/rmultiply composes so that
the argument tm acts first is false on the code: with M = ScalingMatrix(2,2),
T = TranslationMatrix(1,0) and p = (1,0), applying M.rmultiply(T) to p yields
(3,0) (scale first, then translate), while M(T(p)) = (4,0). -/
theorem C1_cex :
    (Matrix.rmultiply (ScalingMatrix 2 2) (TranslationMatrix 1 0)).apply (1, 0) ≠
      (ScalingMatrix 2 2).apply ((TranslationMatrix 1 0).apply (1, 0)) := by
  simp [Matrix.rmultiply, ScalingMatrix, TranslationMatrix, Matrix.set, Matrix.apply, List.getD]
  norm_num

/-- C1 (amended): rmultiply composes the other way round: for every matrix M
whose third row is (0,0,1), every matrix T and every point p, applying the
result of M.rmultiply(T) to p equals first applying the original M to p and
then applying T to the intermediate point, i.e. this's transform acts first
and tm's transform acts second when matrices act on column vectors. -/
theorem C1_amended (m t : Matrix) (p : ℚ × ℚ)
    (h0 : m.values 2 0 = 0) (h1 : m.values 2 1 = 0) (h2 : m.values 2 2 = 1) :
    (m.rmultiply t).apply p = t.apply (m.apply p) := by
  simp [Matrix.rmultiply, Matrix.apply, h0, h1, h2]
  constructor <;> ring

/-- C1 (witness): the amended statement at M = TranslationMatrix(1,2),
T = ScalingMatrix(2,3), p = (4,5), with the third-row hypotheses discharged. -/
theorem C1_witness :
    (TranslationMatrix 1 2).values 2 0 = 0 ∧ (TranslationMatrix 1 2).values 2 1 = 0 ∧
    (TranslationMatrix 1 2).values 2 2 = 1 ∧
    ((TranslationMatrix 1 2).rmultiply (ScalingMatrix 2 3)).apply (4, 5) =
      (ScalingMatrix 2 3).apply ((TranslationMatrix 1 2).apply (4, 5)) := by
  refine ⟨?_, ?_, ?_, C1_amended _ _ _ ?_ ?_ ?_⟩ <;>
    norm_num [TranslationMatrix, Matrix.set, List.getD]

/-- C2 (counterexample): parsing the empty directive string does not succeed
(the claim asserts it returns the identity matrix). -/
theorem C2_cex : isOkE (Matrix.parseStr calcStd trig0 "") = false := rfl

/-- C2 (amended): parsing applies the directives left to right into the
accumulator and the loop ends when the stream enters the failed state after a
read at end of input; but parsing the empty string, or a string of only
whitespace, raises the ParseError "transformation command expected" (the
switch runs once more on the char obtained from get() at end of input)
instead of returning the identity matrix. -/
theorem C2_amended :
    Matrix.parseStr calcStd trig0 "" = .error (.parser (.commandExpected none)) ∧
    Matrix.parseStr calcStd trig0 " \t " = .error (.parser (.commandExpected none)) :=
  ⟨rfl, rfl⟩

/-- C3: isTranslation returns true iff the upper-left 2x2 block is the
identity and the third row is (0,0,1), and it always reports
tx = values[0][2] and ty = values[1][2], also when the check fails. -/
theorem C3_isTranslation (m : Matrix) :
    (m.isTranslation.2.1 = m.values 0 2 ∧ m.isTranslation.2.2 = m.values 1 2) ∧
    (m.isTranslation.1 = true ↔
      (m.values 0 0 = 1 ∧ m.values 0 1 = 0 ∧ m.values 1 0 = 0 ∧ m.values 1 1 = 1 ∧
       m.values 2 0 = 0 ∧ m.values 2 1 = 0 ∧ m.values 2 2 = 1)) := by
  refine ⟨⟨rfl, rfl⟩, ?_⟩
  simp [Matrix.isTranslation, Bool.and_eq_true, decide_eq_true_eq, and_assoc]

/-- C3 (witness): the statement at the matrix TranslationMatrix(3,4). -/
theorem C3_witness :
    ((TranslationMatrix 3 4).isTranslation.2.1 = (TranslationMatrix 3 4).values 0 2 ∧
     (TranslationMatrix 3 4).isTranslation.2.2 = (TranslationMatrix 3 4).values 1 2) ∧
    ((TranslationMatrix 3 4).isTranslation.1 = true ↔
      ((TranslationMatrix 3 4).values 0 0 = 1 ∧ (TranslationMatrix 3 4).values 0 1 = 0 ∧
       (TranslationMatrix 3 4).values 1 0 = 0 ∧ (TranslationMatrix 3 4).values 1 1 = 1 ∧
       (TranslationMatrix 3 4).values 2 0 = 0 ∧ (TranslationMatrix 3 4).values 2 1 = 0 ∧
       (TranslationMatrix 3 4).values 2 2 = 1)) :=
  C3_isTranslation (TranslationMatrix 3 4)

/-- C4: set stores the first min(size,9) values of the sequence row-major into
the flattened cells, and fills every remaining flattened cell i with 1 if
i % 4 = 0 and 0 otherwise; the hypothesis size <= length reflects the C++
precondition that the array holds the promised number of elements. -/
theorem C4_set (v : List ℚ) (size i : ℕ) (hn : size ≤ v.length) (hi : i < 9) :
    (Matrix.set v size).values (i / 3) (i % 3) =
      if i < min size 9 then v.getD i 0 else if i % 4 = 0 then 1 else 0 := by
  have hlt : i / 3 < 3 ∧ i % 3 < 3 := by omega
  have h3 : 3 * (i / 3) + i % 3 = i := by omega
  simp only [Matrix.set]
  rw [if_pos hlt, h3]

/-- C4 (witness): the statement at v = [5,6], size = 2 and flattened index 4,
a cell filled by the identity pattern. -/
theorem C4_witness :
    (2 : ℕ) ≤ ([5, 6] : List ℚ).length ∧ (4 : ℕ) < 9 ∧
    (Matrix.set [5, 6] 2).values (4 / 3) (4 % 3) =
      (if 4 < min 2 9 then ([5, 6] : List ℚ).getD 4 0 else if 4 % 4 = 0 then 1 else 0) :=
  ⟨by norm_num, by norm_num, C4_set [5, 6] 2 4 (by norm_num) (by norm_num)⟩

/-- C5: parse raises its ParserException exactly at the listed sites and
evaluator errors propagate unchanged: an unrecognized command letter ("Z"),
'F' not followed by 'H'/'V' ("FA"), 'K' not followed by 'X'/'Y' ("KA"), a
required argument missing ("TS1"), and a skew angle whose cosine magnitude is
at most eps ("KX90T" under a cosine vanishing at 90); the mandatory
leading-comma error, although present in getArgument, is demanded at none of
parse's call sites and so is never raised, for any evaluator and any input
(first conjunct); and an error of the external evaluator surfaces verbatim
(last conjunct). -/
theorem C5_errors :
    (∀ (cal : Calc) (trig : Trig) (cmds : String),
      noCommaErr (Matrix.parseStr cal trig cmds) = true) ∧
    Matrix.parseStr calcStd trig0 "Z" = .error (.parser (.commandExpected (some 'Z'))) ∧
    Matrix.parseStr calcStd trig0 "FA" = .error (.parser .expectedHV) ∧
    Matrix.parseStr calcStd trig0 "KA" = .error (.parser .expectedXY) ∧
    Matrix.parseStr calcStd trig0 "TS1" = .error (.parser .parameterExpected) ∧
    Matrix.parseStr calcStd trigCos0 "KX90T" = .error (.parser (.illegalSkew 90)) ∧
    Matrix.parseStr calcBoom trig0 "T1" = .error (.calc "boom") := by
  refine ⟨?_, rfl, rfl, rfl, rfl, rfl, rfl⟩
  intro cal trig cmds
  unfold noCommaErr Matrix.parseStr
  split
  · rename_i h
    exact absurd h (fun hc => parseLoop_no_comma cal trig _ _ _ hc)
  · rfl

/-- C5 (witness): the universally quantified conjunct instantiated at the
spec-modelled Calculator and the directive string "T1,2". -/
theorem C5_witness : noCommaErr (Matrix.parseStr calcStd trig0 "T1,2") = true :=
  C5_errors.1 calcStd trig0 "T1,2"

/-- C6: composing translate(a,0) and translate(b,0) on the identity matrix
yields a matrix equal, under the class's equality comparing rows 0 and 1, to
translate(a+b,0) on the identity matrix, for all rationals a and b, including
the no-op fast-path cases. -/
theorem C6_translate (a b : ℚ) :
    Matrix.eqb (((Matrix.diag 1).translate a 0).translate b 0)
      ((Matrix.diag 1).translate (a + b) 0) = true := by
  simp only [Matrix.eqb, Matrix.translate, Matrix.diag, Matrix.rmultiply, TranslationMatrix,
    Matrix.set, List.getD, Bool.and_eq_true, decide_eq_true_eq]
  split_ifs <;> norm_num <;> simp_all

/-- C6 (witness): the statement at a = 2, b = 3. -/
theorem C6_witness :
    Matrix.eqb (((Matrix.diag 1).translate 2 0).translate 3 0)
      ((Matrix.diag 1).translate (2 + 3) 0) = true :=
  C6_translate 2 3

/-- C7 (the code at the failing input): parsing "S2" does not scale by (2,2):
the argument reader runs to the end of the input, appends the EOF byte to the
expression text, and hands "2\xFF" to the evaluator, which rejects it as a
syntax error that aborts the parse. -/
theorem C7_eval :
    Matrix.parseStr calcStd trig0 "S2" = .error (.calc "expression syntax error") := rfl

/-- C8: getSVG renders the six cells in the order values[0][0], values[1][0],
values[0][1], values[1][1], values[0][2], values[1][2], each rounded to three
decimals half-up, inside "matrix( ... )"; and on the identity matrix the
result is exactly "matrix(1 0 0 1 0 0)". -/
theorem C8_getSVG :
    (∀ (fmt : ℚ → String) (m : Matrix),
      m.getSVG fmt = "matrix(" ++ fmt (round (m.values 0 0) 3) ++ " " ++
        fmt (round (m.values 1 0) 3) ++ " " ++ fmt (round (m.values 0 1) 3) ++ " " ++
        fmt (round (m.values 1 1) 3) ++ " " ++ fmt (round (m.values 0 2) 3) ++ " " ++
        fmt (round (m.values 1 2) 3) ++ ")") ∧
    Matrix.getSVG fmtQ (Matrix.diag 1) = "matrix(1 0 0 1 0 0)" := by
  constructor
  · intro fmt m
    simp [Matrix.getSVG, List.range_succ, String.append_assoc]
  · have h1 : round (1 : ℚ) 3 = 1 := by norm_num [round]
    have h0 : round (0 : ℚ) 3 = 0 := by norm_num [round]
    have f1 : fmtQ 1 = "1" := by norm_num [fmtQ]; rfl
    have f0 : fmtQ 0 = "0" := by norm_num [fmtQ]; rfl
    simp [Matrix.getSVG, Matrix.diag, List.range_succ, h1, h0, f1, f0]

/-- C8 (witness): the cell-order conjunct at the formatter fmtQ and the
matrix TranslationMatrix(1,2). -/
theorem C8_witness :
    (TranslationMatrix 1 2).getSVG fmtQ =
      "matrix(" ++ fmtQ (round ((TranslationMatrix 1 2).values 0 0) 3) ++ " " ++
        fmtQ (round ((TranslationMatrix 1 2).values 1 0) 3) ++ " " ++
        fmtQ (round ((TranslationMatrix 1 2).values 0 1) 3) ++ " " ++
        fmtQ (round ((TranslationMatrix 1 2).values 1 1) 3) ++ " " ++
        fmtQ (round ((TranslationMatrix 1 2).values 0 2) 3) ++ " " ++
        fmtQ (round ((TranslationMatrix 1 2).values 1 2) 3) ++ ")" :=
  C8_getSVG.1 fmtQ (TranslationMatrix 1 2)

/-- C9: the result of parse is independent of the receiver's prior value: the
body first overwrites the accumulator with the identity matrix, so parsing
from any two initial matrices agrees, and equals the loop started on the
identity accumulator. -/
theorem C9_parse_resets (m1 m2 : Matrix) (cal : Calc) (trig : Trig) (cmds : String) :
    Matrix.parseFrom m1 cal trig cmds = Matrix.parseFrom m2 cal trig cmds ∧
    Matrix.parseFrom m1 cal trig cmds =
      parseLoop cal trig (cmds.length + 1) (Matrix.diag 1) (mkIStream cmds) :=
  ⟨rfl, rfl⟩

/-- C9 (witness): the statement at the receivers diag 0 and diag 5 with the
directive string "Z". -/
theorem C9_witness :
    Matrix.parseFrom (Matrix.diag 0) calcStd trig0 "Z" =
      Matrix.parseFrom (Matrix.diag 5) calcStd trig0 "Z" :=
  (C9_parse_resets (Matrix.diag 0) (Matrix.diag 5) calcStd trig0 "Z").1

/-- C10: in the 'R' directive the default-centre expressions force the
getVariable lookups for "ux", "w", "uy" and "h" although "R90,0,0" supplies
the centre explicitly; if any one of the four lookups fails, the whole parse
fails with exactly that lookup's error. -/
theorem C10_rotation_vars :
    Matrix.parseStr (specCalc (envMissingVar "ux")) trig0 "R90,0,0" =
      .error (.calc "undefined variable ux") ∧
    Matrix.parseStr (specCalc (envMissingVar "w")) trig0 "R90,0,0" =
      .error (.calc "undefined variable w") ∧
    Matrix.parseStr (specCalc (envMissingVar "uy")) trig0 "R90,0,0" =
      .error (.calc "undefined variable uy") ∧
    Matrix.parseStr (specCalc (envMissingVar "h")) trig0 "R90,0,0" =
      .error (.calc "undefined variable h") :=
  ⟨rfl, rfl, rfl, rfl⟩

end Dvi
